import Mathlib

/-!
# Verification of the seo-agent observation store and threat classifier

A shallow embedding of the persistence core of the `seo-agent` repository
(`core/database.py`, `core/data_collector.py`, `core/threat_detector.py`).

Modelling conventions:
* each SQLite table becomes a `List` of row structures inside a `DB` record;
  `AUTOINCREMENT` ids are threaded explicitly via `next…Id` counters
  (SQLite autoincrement starts at 1, so the counters start at 1);
* dates and times travel as ISO strings, exactly as the Python code passes
  them to SQLite (`isoformat()`); tuple comparison on `(check_date,
  check_time)` is string-lexicographic, as in Python / SQLite TEXT;
* `json.dumps` over a top-10 competitor list is injective on the structured
  values it receives, so the canonical JSON column and the MD5 digest (used
  only for equality) are both modelled by the competitor list itself;
  a SQL `NULL` hash is `Option.none` (Python truthiness: a real MD5 digest
  is a non-empty string, hence always truthy);
* floating point averages are modelled by exact rationals `ℚ`;
* wall-clock reads (`datetime.now()`) and the datetime-library helpers are
  oracle parameters of the functions that use them;
* the SQLite storage race of `save_snapshot_if_changed` is modelled by a
  boolean conflict oracle, and the fallback write failure by a second one.
-/

namespace SeoAgent

/-- One entry of a competitor list as produced by the position parser
(`{domain, position, url, title, snippet}`). -/
structure Competitor where
  domain : String
  position : Int
  url : String
  title : String
  snippet : String
deriving DecidableEq, Repr

/-- Row of the `projects` table. -/
structure ProjectRow where
  id : Nat
  name : String
  domain : String
deriving DecidableEq, Repr

/-- Row of the `keywords` table. -/
structure KeywordRow where
  id : Nat
  project_id : Nat
  keyword : String
  is_active : Bool
deriving DecidableEq, Repr

/-- Row of the `monitoring_sessions` table; `start_time` is split into the
date and time components the collector reads back. -/
structure SessionRow where
  session_id : Nat
  project_id : Nat
  session_name : Option String
  start_date : String
  start_time : String
  end_date : Option String
  end_time : Option String
  status : String
  total_keywords : Option Nat
  completed_keywords : Option Nat
deriving DecidableEq, Repr

/-- Row of the `positions` table. -/
structure PositionRow where
  id : Nat
  project_id : Nat
  keyword_id : Nat
  session_id : Option Nat
  check_date : String
  check_time : String
  position : Option Int
  url : Option String
  total_results : Int
  search_engine : String
deriving DecidableEq, Repr

/-- Row of the `competitors` table. -/
structure CompetitorRow where
  id : Nat
  project_id : Nat
  keyword_id : Nat
  session_id : Option Nat
  check_date : String
  check_time : String
  competitor_domain : String
  competitor_position : Int
  competitor_url : String
  competitor_title : String
  competitor_snippet : String
deriving DecidableEq, Repr

/-- Row of the `domains` reference table.  `avg_position` is nullable in the
schema, hence an `Option`; the code inserts it non-null. -/
structure DomainRow where
  id : Nat
  domain : String
  first_seen : String
  last_seen : String
  total_appearances : Nat
  avg_position : Option ℚ
deriving DecidableEq

/-- Row of the `snapshots` table.  `top_10_json` holds the canonical JSON of
the top-10 list (modelled by the list itself, since `json.dumps` is injective
on these values) and `previous_top_10_hash` the MD5 digest of that JSON
(modelled likewise because it is only ever compared for equality). -/
structure SnapshotRow where
  id : Nat
  project_id : Nat
  keyword_id : Nat
  snapshot_date : String
  top_10_json : List Competitor
  previous_top_10_hash : Option (List Competitor)
  has_changes : Bool
deriving DecidableEq, Repr

/-- The whole SQLite database. -/
structure DB where
  projects : List ProjectRow
  keywords : List KeywordRow
  sessions : List SessionRow
  positions : List PositionRow
  competitors : List CompetitorRow
  domains : List DomainRow
  snapshots : List SnapshotRow
  nextProjectId : Nat
  nextKeywordId : Nat
  nextSessionId : Nat
  nextPositionId : Nat
  nextCompetitorId : Nat
  nextDomainId : Nat
  nextSnapshotId : Nat
deriving DecidableEq

/-- A freshly initialised database (`AUTOINCREMENT` counters start at 1). -/
def DB.empty : DB :=
  ⟨[], [], [], [], [], [], [], 1, 1, 1, 1, 1, 1, 1⟩

/-- Error taxonomy surfaced by store calls (spec §7).  Only
`invalidArgument` is raised by the modelled operations. -/
inductive DBError where
  | invalidArgument
deriving DecidableEq, Repr

/-- SQL `COALESCE(a, b)`. -/
def coalesce (a b : Option Nat) : Option Nat :=
  match a with
  | some x => some x
  | none => b

/-- `SEODatabase.get_or_create_project`: look up by domain; update the name
in place when found, insert otherwise.

Modelled from the spec: the `projects` DDL is elided in `_init_database`
(`# ... существующий код ...`); per §4.1 an empty domain is a caller
contract violation rejected with `InvalidArgument` and no write, which we
model as the insert of an empty domain failing.  The lookup/update/insert
control flow is taken verbatim from the Python method. -/
def get_or_create_project (db : DB) (name domain : String) :
    Except DBError (DB × Nat) :=
  match db.projects.find? (fun p => p.domain == domain) with
  | some p =>
      let projects := db.projects.map fun q =>
        if q.id == p.id then { q with name := name } else q
      .ok ({ db with projects := projects }, p.id)
  | none =>
      if domain = "" then .error .invalidArgument
      else
        let row : ProjectRow := ⟨db.nextProjectId, name, domain⟩
        .ok ({ db with
                projects := db.projects ++ [row],
                nextProjectId := db.nextProjectId + 1 },
             db.nextProjectId)

/-- `SEODatabase.get_or_create_keyword`: look up by `(project_id, keyword)`;
reactivate in place when found, insert active otherwise. -/
def get_or_create_keyword (db : DB) (project_id : Nat) (keyword : String) :
    DB × Nat :=
  match db.keywords.find? (fun k =>
      k.project_id == project_id && k.keyword == keyword) with
  | some k =>
      let keywords := db.keywords.map fun q =>
        if q.id == k.id then { q with is_active := true } else q
      ({ db with keywords := keywords }, k.id)
  | none =>
      let row : KeywordRow := ⟨db.nextKeywordId, project_id, keyword, true⟩
      ({ db with
          keywords := db.keywords ++ [row],
          nextKeywordId := db.nextKeywordId + 1 },
       db.nextKeywordId)

/-- Key predicate of the `positions` upsert:
`(project_id, keyword_id, check_date, search_engine)`. -/
def positionKey (project_id keyword_id : Nat) (check_date search_engine : String)
    (r : PositionRow) : Bool :=
  r.project_id == project_id && r.keyword_id == keyword_id &&
    r.check_date == check_date && r.search_engine == search_engine

/-- `SEODatabase.save_position`: upsert on
`(project_id, keyword_id, check_date, search_engine)`.  On update the
position, url, total_results and check_time are overwritten and
`session_id = COALESCE(new, old)`; on miss a fresh row is inserted.
Returns the new database and the id of the (possibly pre-existing) row. -/
def save_position (db : DB) (project_id keyword_id : Nat)
    (check_date check_time : String) (position : Option Int)
    (url : Option String) (total_results : Int) (search_engine : String)
    (session_id : Option Nat) : DB × Nat :=
  match db.positions.find? (positionKey project_id keyword_id check_date search_engine) with
  | some row =>
      let positions := db.positions.map fun r =>
        if r.id == row.id then
          { r with
              position := position, url := url,
              total_results := total_results, check_time := check_time,
              session_id := coalesce session_id r.session_id }
        else r
      ({ db with positions := positions }, row.id)
  | none =>
      let row : PositionRow :=
        ⟨db.nextPositionId, project_id, keyword_id, session_id,
         check_date, check_time, position, url, total_results, search_engine⟩
      ({ db with
          positions := db.positions ++ [row],
          nextPositionId := db.nextPositionId + 1 },
       db.nextPositionId)

section ListLemmas

variable {α : Type _}

theorem find?_append_none (p : α → Bool) (l₁ l₂ : List α)
    (h : l₁.find? p = none) : (l₁ ++ l₂).find? p = l₂.find? p := by
  induction l₁ with
  | nil => simp
  | cons a l ih =>
      rw [List.find?_cons] at h
      rw [List.cons_append, List.find?_cons]
      cases hpa : p a with
      | true => simp [hpa] at h
      | false =>
        simp only [hpa] at h ⊢
        exact ih h

theorem find?_eq_none_of_all (p : α → Bool) (l : List α)
    (h : ∀ x ∈ l, p x = false) : l.find? p = none := by
  rw [List.find?_eq_none]
  intro x hx
  simp [h x hx]

theorem filter_eq_nil_of_all (p : α → Bool) (l : List α)
    (h : ∀ x ∈ l, p x = false) : l.filter p = [] := by
  rw [List.filter_eq_nil_iff]
  intro x hx
  simp [h x hx]

end ListLemmas

/-- **C1.** `save_position` is an idempotent upsert: starting from a state
with no row for `(project_id, keyword_id, check_date, search_engine)` and a
fresh id counter, two successive calls with the same key and arbitrary
(different) payloads leave exactly one row for the key, carrying the second
call's position/url/total_results/check_time, both calls return that row's
id, and the stored `session_id` is `COALESCE(second, first)` — in
particular a `none` session on the repeat call keeps the first call's
session. -/
theorem save_position_upsert_idempotent
    (db : DB) (pid kid : Nat) (d t₁ t₂ : String) (p₁ p₂ : Option Int)
    (u₁ u₂ : Option String) (n₁ n₂ : Int) (se : String)
    (sid₁ sid₂ : Option Nat)
    (hkey : ∀ r ∈ db.positions, positionKey pid kid d se r = false)
    (hfresh : ∀ r ∈ db.positions, (r.id == db.nextPositionId) = false) :
    (save_position db pid kid d t₁ p₁ u₁ n₁ se sid₁).2 = db.nextPositionId ∧
    (save_position (save_position db pid kid d t₁ p₁ u₁ n₁ se sid₁).1
        pid kid d t₂ p₂ u₂ n₂ se sid₂).2 = db.nextPositionId ∧
    ((save_position (save_position db pid kid d t₁ p₁ u₁ n₁ se sid₁).1
        pid kid d t₂ p₂ u₂ n₂ se sid₂).1.positions.filter
          (positionKey pid kid d se)) =
      [⟨db.nextPositionId, pid, kid, coalesce sid₂ sid₁, d, t₂, p₂, u₂, n₂, se⟩] := by
  have hnone : db.positions.find? (positionKey pid kid d se) = none :=
    find?_eq_none_of_all _ _ hkey
  have hkeyRow : positionKey pid kid d se
      ⟨db.nextPositionId, pid, kid, sid₁, d, t₁, p₁, u₁, n₁, se⟩ = true := by
    simp [positionKey]
  have happ : ((db.positions ++
      [(⟨db.nextPositionId, pid, kid, sid₁, d, t₁, p₁, u₁, n₁, se⟩ : PositionRow)]).find?
        (positionKey pid kid d se)) =
      some ⟨db.nextPositionId, pid, kid, sid₁, d, t₁, p₁, u₁, n₁, se⟩ := by
    rw [find?_append_none _ _ _ hnone]
    simp [List.find?_cons, hkeyRow]
  have hmap : ((db.positions ++
      [(⟨db.nextPositionId, pid, kid, sid₁, d, t₁, p₁, u₁, n₁, se⟩ : PositionRow)]).map fun r =>
        if r.id == db.nextPositionId then
          { r with
              position := p₂, url := u₂, total_results := n₂, check_time := t₂,
              session_id := coalesce sid₂ r.session_id }
        else r) =
      db.positions ++
        [⟨db.nextPositionId, pid, kid, coalesce sid₂ sid₁, d, t₂, p₂, u₂, n₂, se⟩] := by
    rw [List.map_append]
    congr 1
    · conv_rhs => rw [← List.map_id db.positions]
      refine List.map_congr_left ?_
      intro r hr
      simp [hfresh r hr]
    · simp
  refine ⟨by simp [save_position, hnone], ?_, ?_⟩
  · simp only [save_position, hnone]
    simp [happ]
  · simp only [save_position, hnone]
    simp only [happ, hmap, List.filter_append]
    rw [filter_eq_nil_of_all _ _ hkey]
    simp [positionKey]

/-- Witness for C1 at the empty database. -/
theorem save_position_upsert_idempotent_witness :
    (save_position DB.empty 1 1 "2024-01-01" "10:00:00" (some 5) (some "a") 100
        "yandex" (some 7)).2 = DB.empty.nextPositionId ∧
    (save_position (save_position DB.empty 1 1 "2024-01-01" "10:00:00" (some 5)
          (some "a") 100 "yandex" (some 7)).1
        1 1 "2024-01-01" "11:00:00" (some 9) (some "b") 50 "yandex" none).2 =
      DB.empty.nextPositionId ∧
    ((save_position (save_position DB.empty 1 1 "2024-01-01" "10:00:00" (some 5)
          (some "a") 100 "yandex" (some 7)).1
        1 1 "2024-01-01" "11:00:00" (some 9) (some "b") 50 "yandex" none).1.positions.filter
          (positionKey 1 1 "2024-01-01" "yandex")) =
      [⟨DB.empty.nextPositionId, 1, 1, coalesce none (some 7), "2024-01-01",
        "11:00:00", some 9, some "b", 50, "yandex"⟩] :=
  save_position_upsert_idempotent DB.empty 1 1 "2024-01-01" "10:00:00" "11:00:00"
    (some 5) (some 9) (some "a") (some "b") 100 50 "yandex" (some 7) none
    (by intro r hr; simp [DB.empty] at hr) (by intro r hr; simp [DB.empty] at hr)

/-- Key predicate of the `snapshots` table:
`(project_id, keyword_id, snapshot_date)`. -/
def snapshotKey (project_id keyword_id : Nat) (snapshot_date : String)
    (r : SnapshotRow) : Bool :=
  r.project_id == project_id && r.keyword_id == keyword_id &&
    r.snapshot_date == snapshot_date

/-- `SEODatabase.save_snapshot_if_changed`, non-racing path.  The canonical
JSON (`json.dumps(top_10)`) and its MD5 digest are modelled by the list
itself; `has_changes = (current_hash != previous_hash) if previous_hash
else True` — a SQL NULL previous hash is falsy, a real digest is a
non-empty string and hence always truthy. -/
def save_snapshot_if_changed (db : DB) (project_id keyword_id : Nat)
    (snapshot_date : String) (top_10 : List Competitor) : DB × Bool :=
  let top_10_json := top_10
  let current_hash := top_10_json
  match db.snapshots.find? (snapshotKey project_id keyword_id snapshot_date) with
  | some existing =>
      let has_changes : Bool :=
        match existing.previous_top_10_hash with
        | none => true
        | some previous_hash => current_hash != previous_hash
      if has_changes then
        let snapshots := db.snapshots.map fun r =>
          if r.id == existing.id then
            { r with
                top_10_json := top_10_json,
                previous_top_10_hash := some current_hash,
                has_changes := true }
          else r
        ({ db with snapshots := snapshots }, true)
      else
        let snapshots := db.snapshots.map fun r =>
          if r.id == existing.id then { r with has_changes := false } else r
        ({ db with snapshots := snapshots }, false)
  | none =>
      let row : SnapshotRow :=
        ⟨db.nextSnapshotId, project_id, keyword_id, snapshot_date,
         top_10_json, some current_hash, true⟩
      ({ db with
          snapshots := db.snapshots ++ [row],
          nextSnapshotId := db.nextSnapshotId + 1 },
       true)

/-- `SEODatabase._force_update_snapshot`: the IntegrityError fallback.
`INSERT OR REPLACE` removes every row conflicting on the snapshot key and
inserts the new data with `has_changes = TRUE`, returning `True`; if the
fallback write itself raises, the exception is swallowed and the call
returns `False` with the store untouched (`writeFails` is the storage
fault oracle).

The `UNIQUE(project_id, keyword_id, snapshot_date)` constraint driving the
replacement is Modelled from the spec: the `snapshots` DDL is elided in
`_init_database`, and §3 states one row per that key. -/
def force_update_snapshot (db : DB) (project_id keyword_id : Nat)
    (date_str : String) (top_10_json current_hash : List Competitor)
    (writeFails : Bool) : DB × Bool :=
  if writeFails then (db, false)
  else
    let rest := db.snapshots.filter fun r =>
      !(snapshotKey project_id keyword_id date_str r)
    let row : SnapshotRow :=
      ⟨db.nextSnapshotId, project_id, keyword_id, date_str,
       top_10_json, some current_hash, true⟩
    ({ db with
        snapshots := rest ++ [row],
        nextSnapshotId := db.nextSnapshotId + 1 },
     true)

/-- `SEODatabase.save_snapshot_if_changed` with the concurrent-writer race
made explicit: `raceConflict` is true when the body raises
`sqlite3.IntegrityError` (the `except` arm), in which case the transaction
is rolled back and the call degrades to `_force_update_snapshot`. -/
def save_snapshot_if_changed_raced (db : DB) (project_id keyword_id : Nat)
    (snapshot_date : String) (top_10 : List Competitor)
    (raceConflict writeFails : Bool) : DB × Bool :=
  if raceConflict then
    force_update_snapshot db project_id keyword_id snapshot_date top_10 top_10 writeFails
  else
    save_snapshot_if_changed db project_id keyword_id snapshot_date top_10

/-- **C2.** Snapshot change law: from a state with no snapshot row for the
key (and a fresh id counter), (a) the first `save_snapshot_if_changed`
returns `true` and inserts the row; (b) an immediate repeat with the same
`top_10` returns `false` and leaves the stored JSON and hash untouched,
only resetting `has_changes` to `false`; (c) a repeat whose `top_10` is any
different list — in particular the same entries in a different position
order — returns `true`: canonicalization is position-sensitive. -/
theorem save_snapshot_change_law
    (db : DB) (pid kid : Nat) (d : String) (l₁ l₂ : List Competitor)
    (hkey : ∀ r ∈ db.snapshots, snapshotKey pid kid d r = false)
    (hfresh : ∀ r ∈ db.snapshots, (r.id == db.nextSnapshotId) = false)
    (hne : l₁ ≠ l₂) :
    (save_snapshot_if_changed db pid kid d l₁).2 = true ∧
    (save_snapshot_if_changed (save_snapshot_if_changed db pid kid d l₁).1
        pid kid d l₁).2 = false ∧
    ((save_snapshot_if_changed (save_snapshot_if_changed db pid kid d l₁).1
        pid kid d l₁).1.snapshots.filter (snapshotKey pid kid d)) =
      [⟨db.nextSnapshotId, pid, kid, d, l₁, some l₁, false⟩] ∧
    (save_snapshot_if_changed (save_snapshot_if_changed db pid kid d l₁).1
        pid kid d l₂).2 = true := by
  have hnone : db.snapshots.find? (snapshotKey pid kid d) = none :=
    find?_eq_none_of_all _ _ hkey
  have hkeyRow : snapshotKey pid kid d
      ⟨db.nextSnapshotId, pid, kid, d, l₁, some l₁, true⟩ = true := by
    simp [snapshotKey]
  have happ : ((db.snapshots ++
      [(⟨db.nextSnapshotId, pid, kid, d, l₁, some l₁, true⟩ : SnapshotRow)]).find?
        (snapshotKey pid kid d)) =
      some ⟨db.nextSnapshotId, pid, kid, d, l₁, some l₁, true⟩ := by
    rw [find?_append_none _ _ _ hnone]
    simp [List.find?_cons, hkeyRow]
  have hmap : ((db.snapshots ++
      [(⟨db.nextSnapshotId, pid, kid, d, l₁, some l₁, true⟩ : SnapshotRow)]).map fun r =>
        if r.id == db.nextSnapshotId then { r with has_changes := false } else r) =
      db.snapshots ++ [⟨db.nextSnapshotId, pid, kid, d, l₁, some l₁, false⟩] := by
    rw [List.map_append]
    congr 1
    · conv_rhs => rw [← List.map_id db.snapshots]
      refine List.map_congr_left ?_
      intro r hr
      simp [hfresh r hr]
    · simp
  refine ⟨by simp [save_snapshot_if_changed, hnone], ?_, ?_, ?_⟩
  · simp only [save_snapshot_if_changed, hnone]
    simp [happ]
  · simp only [save_snapshot_if_changed, hnone]
    simp only [happ]
    simp only [bne_self_eq_false]
    simp only [if_neg (by simp : ¬ (false : Bool) = true)]
    simp only [hmap, List.filter_append]
    rw [filter_eq_nil_of_all _ _ hkey]
    simp [snapshotKey]
  · simp only [save_snapshot_if_changed, hnone]
    simp [happ, bne, hne, Ne.symm hne]

/-- Witness for C2 at the empty database, with the spec's concrete
position-sensitivity pair: `[(1,a),(2,b)]` versus `[(1,b),(2,a)]`. -/
theorem save_snapshot_change_law_witness :
    (save_snapshot_if_changed DB.empty 1 1 "2024-01-01"
        [⟨"a", 1, "", "", ""⟩, ⟨"b", 2, "", "", ""⟩]).2 = true ∧
    (save_snapshot_if_changed (save_snapshot_if_changed DB.empty 1 1 "2024-01-01"
        [⟨"a", 1, "", "", ""⟩, ⟨"b", 2, "", "", ""⟩]).1 1 1 "2024-01-01"
        [⟨"a", 1, "", "", ""⟩, ⟨"b", 2, "", "", ""⟩]).2 = false ∧
    ((save_snapshot_if_changed (save_snapshot_if_changed DB.empty 1 1 "2024-01-01"
        [⟨"a", 1, "", "", ""⟩, ⟨"b", 2, "", "", ""⟩]).1 1 1 "2024-01-01"
        [⟨"a", 1, "", "", ""⟩, ⟨"b", 2, "", "", ""⟩]).1.snapshots.filter
          (snapshotKey 1 1 "2024-01-01")) =
      [⟨DB.empty.nextSnapshotId, 1, 1, "2024-01-01",
        [⟨"a", 1, "", "", ""⟩, ⟨"b", 2, "", "", ""⟩],
        some [⟨"a", 1, "", "", ""⟩, ⟨"b", 2, "", "", ""⟩], false⟩] ∧
    (save_snapshot_if_changed (save_snapshot_if_changed DB.empty 1 1 "2024-01-01"
        [⟨"a", 1, "", "", ""⟩, ⟨"b", 2, "", "", ""⟩]).1 1 1 "2024-01-01"
        [⟨"b", 1, "", "", ""⟩, ⟨"a", 2, "", "", ""⟩]).2 = true :=
  save_snapshot_change_law DB.empty 1 1 "2024-01-01"
    [⟨"a", 1, "", "", ""⟩, ⟨"b", 2, "", "", ""⟩]
    [⟨"b", 1, "", "", ""⟩, ⟨"a", 2, "", "", ""⟩]
    (by intro r hr; simp [DB.empty] at hr)
    (by intro r hr; simp [DB.empty] at hr)
    (by decide)

/-- **C10.** The IntegrityError fallback of `save_snapshot_if_changed`
replaces the row with the new JSON/hash, sets `has_changes = true` and
returns `true` unconditionally — even when the new content equals what was
stored — and if the fallback write itself fails the call returns `false`
with the store untouched; the racing call is a total function into
`DB × Bool`, so no storage exception reaches the caller. -/
theorem save_snapshot_race_fallback
    (db : DB) (pid kid : Nat) (d : String) (top10 : List Competitor) :
    (save_snapshot_if_changed_raced db pid kid d top10 true false).2 = true ∧
    ((save_snapshot_if_changed_raced db pid kid d top10 true false).1.snapshots.filter
        (snapshotKey pid kid d)) =
      [⟨db.nextSnapshotId, pid, kid, d, top10, some top10, true⟩] ∧
    (save_snapshot_if_changed_raced db pid kid d top10 true true).2 = false ∧
    (save_snapshot_if_changed_raced db pid kid d top10 true true).1 = db := by
  refine ⟨rfl, ?_, rfl, rfl⟩
  have hred : (save_snapshot_if_changed_raced db pid kid d top10 true false).1.snapshots =
      (db.snapshots.filter fun r => !(snapshotKey pid kid d r)) ++
        [⟨db.nextSnapshotId, pid, kid, d, top10, some top10, true⟩] := rfl
  rw [hred, List.filter_append]
  rw [filter_eq_nil_of_all _ _ (by
    intro r hr
    have := List.of_mem_filter hr
    simpa using this)]
  simp [snapshotKey]

/-- `SEODatabase._update_domain_reference`: insert an unknown domain with
`total_appearances = 1`, `avg_position = position`,
`first_seen = last_seen = seen_date`; otherwise bump the running mean
`avg' = (avg*n + pos) / (n+1)`, increment the counter and refresh
`last_seen`.  Returns the updated database together with the number of rows
the statement changed (feeding the connection's `total_changes`). -/
def update_domain_reference (db : DB) (domain : String) (seen_date : String)
    (position : Int) : DB × Nat :=
  if domain = "" then (db, 0)
  else
    match db.domains.find? (fun r => r.domain == domain) with
    | some row =>
        let new_total := row.total_appearances + 1
        let new_avg : ℚ :=
          match row.avg_position with
          | none => (position : ℚ)
          | some avg => (avg * (row.total_appearances : ℚ) + (position : ℚ)) / (new_total : ℚ)
        let domains := db.domains.map fun r =>
          if r.id == row.id then
            { r with
                last_seen := seen_date,
                total_appearances := new_total,
                avg_position := some new_avg }
          else r
        ({ db with domains := domains }, 1)
    | none =>
        let row : DomainRow :=
          ⟨db.nextDomainId, domain, seen_date, seen_date, 1, some (position : ℚ)⟩
        ({ db with
            domains := db.domains ++ [row],
            nextDomainId := db.nextDomainId + 1 },
         1)

/-- Uniqueness key of the `competitors` table:
`(project_id, keyword_id, check_date, check_time, competitor_domain,
competitor_position)`. -/
def competitorConflict (db : DB) (project_id keyword_id : Nat)
    (check_date check_time : String) (domain : String) (position : Int) : Bool :=
  db.competitors.any fun r =>
    r.project_id == project_id && r.keyword_id == keyword_id &&
      r.check_date == check_date && r.check_time == check_time &&
      r.competitor_domain == domain && r.competitor_position == position

/-- Loop body of `SEODatabase.save_competitors`, threading the sqlite
connection's cumulative `total_changes` counter `tc` (the counter the code
consults with `if conn.total_changes > 0`).  `INSERT OR IGNORE` silently
skips the row on a uniqueness conflict or a
`CHECK(competitor_position BETWEEN 1 AND 100)` violation, changing nothing;
a successful insert counts one change. -/
def save_competitors_loop (db : DB) (project_id keyword_id : Nat)
    (check_date check_time : String) (session_id : Option Nat) (tc : Nat) :
    List (Option Competitor) → DB × Nat
  | [] => (db, tc)
  | none :: rest =>
      save_competitors_loop db project_id keyword_id check_date check_time
        session_id tc rest
  | some comp :: rest =>
      let domain := comp.domain
      let position := comp.position
      if domain = "" || position == 0 then
        save_competitors_loop db project_id keyword_id check_date check_time
          session_id tc rest
      else
        let inserted : Bool :=
          decide (1 ≤ position ∧ position ≤ 100) &&
            !(competitorConflict db project_id keyword_id check_date check_time
                domain position)
        let step₁ : DB × Nat :=
          if inserted then
            let row : CompetitorRow :=
              ⟨db.nextCompetitorId, project_id, keyword_id, session_id,
               check_date, check_time, domain, position, comp.url,
               comp.title.take 500, comp.snippet.take 1000⟩
            ({ db with
                competitors := db.competitors ++ [row],
                nextCompetitorId := db.nextCompetitorId + 1 },
             tc + 1)
          else (db, tc)
        let step₂ : DB × Nat :=
          if step₁.2 > 0 then
            let upd := update_domain_reference step₁.1 domain check_date position
            (upd.1, step₁.2 + upd.2)
          else step₁
        save_competitors_loop step₂.1 project_id keyword_id check_date check_time
          session_id step₂.2 rest

/-- `SEODatabase.save_competitors`: open a fresh connection
(`total_changes` starts at 0) and run the per-entry loop; an empty list is
a no-op. -/
def save_competitors (db : DB) (project_id keyword_id : Nat)
    (check_date check_time : String) (competitors : List (Option Competitor))
    (session_id : Option Nat) : DB :=
  if competitors.isEmpty then db
  else
    (save_competitors_loop db project_id keyword_id check_date check_time
      session_id 0 competitors).1

/-- **C3 (bug exhibit).** With a fresh connection, saving the same
competitor entry twice in one `save_competitors` call stores exactly one
competitor row — the second `INSERT OR IGNORE` is a no-op — yet the
`domains` aggregate ends with `total_appearances = 2` after this single
distinct insertion: the guard `conn.total_changes > 0` tests the
connection's cumulative change counter (which stays positive after the
first insert), not the affected rows of the ignored insert, so
`_update_domain_reference` fires for the duplicate as well, contradicting
the inline comment (`# Если вставка прошла (affected_rows > 0)`), the spec
and the claim (which require `total_appearances = N = 1`). -/
theorem save_competitors_duplicate_overcounts :
    (save_competitors DB.empty 1 1 "2024-01-01" "10:00:00"
        [some ⟨"ex.com", 5, "u", "t", "s"⟩, some ⟨"ex.com", 5, "u", "t", "s"⟩]
        none).competitors.length = 1 ∧
    (save_competitors DB.empty 1 1 "2024-01-01" "10:00:00"
        [some ⟨"ex.com", 5, "u", "t", "s"⟩, some ⟨"ex.com", 5, "u", "t", "s"⟩]
        none).domains =
      [⟨1, "ex.com", "2024-01-01", "2024-01-01", 2, some 5⟩] := by
  constructor
  · rfl
  · show [(⟨1, "ex.com", "2024-01-01", "2024-01-01", 2,
        some ((5 * (1 : ℚ) + 5) / 2)⟩ : DomainRow)] = _
    norm_num

/-! ## Trend & Threat Classifier (`core/threat_detector.py`)

The classifier reads history rows produced by
`SEODatabase.get_position_history` (keyword, check_date, check_time,
position, …).  The wall clock (`datetime.now().isoformat()`) and the two
datetime helpers `_hours_between_dates` / `_days_between_dates` are oracle
parameters. -/

/-- One row of the position history as the classifier consumes it. -/
structure HistoryRecord where
  keyword : String
  check_date : String
  check_time : String
  position : Option Int
deriving DecidableEq, Repr

/-- `ThreatDetector.thresholds`. -/
def thresholds_critical_drop : Int := 10

/-- `ThreatDetector.thresholds`. -/
def thresholds_significant_drop : Int := 3

/-- `ThreatDetector.thresholds`. -/
def thresholds_days_to_analyze : Nat := 7

/-- `ThreatDetector.thresholds`. -/
def thresholds_min_check_frequency : Nat := 2

/-- A threat record: either a `position_drop` from
`analyze_position_changes` or a `displacement` from `detect_displacements`
(whose `dropped_from_top20` field is always `True`). -/
inductive Threat where
  | positionDrop (keyword : String) (previous_position current_position change : Int)
      (threat_level : String) (detected_at : String) (timeframe_hours : ℚ)
  | displacement (keyword : String) (old_position new_position positions_lost : Int)
      (time_period_days : Int) (threat_level : String)
deriving DecidableEq, Repr

/-- `threat.get('type')`. -/
def Threat.threatType : Threat → String
  | .positionDrop .. => "position_drop"
  | .displacement .. => "displacement"

/-- `threat.get('threat_level')`. -/
def Threat.level : Threat → String
  | .positionDrop _ _ _ _ lvl _ _ => lvl
  | .displacement _ _ _ _ _ lvl => lvl

/-- `threat['keyword']`. -/
def Threat.keyword : Threat → String
  | .positionDrop kw .. => kw
  | .displacement kw .. => kw

/-- Stable insertion (keeps earlier-inserted elements before later equal
ones), building the model of Python's stable `sorted`. -/
def insertStable {α : Type _} (le : α → α → Bool) (x : α) : List α → List α
  | [] => [x]
  | y :: ys => if le y x then y :: insertStable le x ys else x :: y :: ys

/-- Python's stable `sorted(l, key=...)` for a total boolean `le`. -/
def sortStable {α : Type _} (le : α → α → Bool) (l : List α) : List α :=
  l.foldl (fun acc x => insertStable le x acc) []

/-- Lexicographic strict order on character lists (Python/SQLite string
comparison, by code point). -/
def charListLt : List Char → List Char → Bool
  | [], [] => false
  | [], _ :: _ => true
  | _ :: _, [] => false
  | a :: as, b :: bs =>
      if a < b then true else if b < a then false else charListLt as bs

/-- Python's `<` on strings. -/
def strLt (a b : String) : Bool :=
  charListLt a.data b.data

/-- Python tuple comparison on the sort key
`(x['check_date'], x['check_time'])` (string-lexicographic, as SQLite TEXT
values compare): `a ≤ b` in the tuple order. -/
def recLe (a b : HistoryRecord) : Bool :=
  if a.check_date == b.check_date then !(strLt b.check_time a.check_time)
  else strLt a.check_date b.check_date

/-- `defaultdict(list)` grouping by `record['keyword']`: insertion-ordered
keys, records in list order within each key. -/
def groupByKeyword (history : List HistoryRecord) :
    List (String × List HistoryRecord) :=
  history.foldl
    (fun acc r =>
      if acc.any (fun g => g.1 == r.keyword) then
        acc.map fun g => if g.1 == r.keyword then (g.1, g.2 ++ [r]) else g
      else acc ++ [(r.keyword, [r])])
    []

/-- Per-keyword body of `ThreatDetector.analyze_position_changes`: sort by
`(check_date, check_time)`, require at least `min_check_frequency = 2`
records, compare the last two; skip null positions; classify
`change = latest - previous` against the drop thresholds. -/
def keywordThreat (now : String) (hoursBetween : String → String → ℚ)
    (keyword : String) (records : List HistoryRecord) : Option Threat :=
  let sorted_records := sortStable recLe records
  if thresholds_min_check_frequency ≤ sorted_records.length then
    match sorted_records.drop (sorted_records.length - thresholds_min_check_frequency) with
    | [previous, latest] =>
        match latest.position, previous.position with
        | some latest_pos, some previous_pos =>
            let change := latest_pos - previous_pos
            if thresholds_critical_drop ≤ change then
              some (.positionDrop keyword previous_pos latest_pos change "critical" now
                (hoursBetween (previous.check_date ++ " " ++ previous.check_time)
                  (latest.check_date ++ " " ++ latest.check_time)))
            else if thresholds_significant_drop ≤ change then
              some (.positionDrop keyword previous_pos latest_pos change "warning" now
                (hoursBetween (previous.check_date ++ " " ++ previous.check_time)
                  (latest.check_date ++ " " ++ latest.check_time)))
            else none
        | _, _ => none
    | _ => none
  else none

/-- `ThreatDetector.analyze_position_changes` over an already-loaded 7-day
history (empty history short-circuits to no threats). -/
def analyze_position_changes (now : String) (hoursBetween : String → String → ℚ)
    (history : List HistoryRecord) : List Threat :=
  if history.isEmpty then []
  else (groupByKeyword history).filterMap fun g => keywordThreat now hoursBetween g.1 g.2

/-- Per-keyword body of `ThreatDetector.detect_displacements`: compare the
oldest and newest observation; fire only on `oldest ≤ 20 < latest`, severity
`critical` when the new position is beyond 50. -/
def keywordDisplacement (daysBetween : String → String → Int)
    (keyword : String) (records : List HistoryRecord) : Option Threat :=
  if records.length < 2 then none
  else
    let sorted_records := sortStable recLe records
    match sorted_records.head?, sorted_records.getLast? with
    | some oldest, some latest =>
        match oldest.position, latest.position with
        | some oldest_pos, some latest_pos =>
            if oldest_pos ≤ 20 ∧ 20 < latest_pos then
              some (.displacement keyword oldest_pos latest_pos
                (latest_pos - oldest_pos)
                (daysBetween oldest.check_date latest.check_date)
                (if 50 < latest_pos then "critical" else "warning"))
            else none
        | _, _ => none
    | _, _ => none

/-- `ThreatDetector.detect_displacements` over the 30-day history. -/
def detect_displacements (daysBetween : String → String → Int)
    (history : List HistoryRecord) : List Threat :=
  if history.length < 2 then []
  else (groupByKeyword history).filterMap fun g => keywordDisplacement daysBetween g.1 g.2

/-- One entry of `keyword_trends` in `assess_overall_situation`. -/
structure KeywordTrend where
  keyword : String
  trend : String
  current_position : Int
  change_3_checks : Int
deriving DecidableEq, Repr

/-- The `metrics` block of the assessment (`improvement_ratio` /
`decline_ratio` are kept exact here; Python additionally rounds the floats
to two decimals for display, and nothing downstream reads them). -/
structure Metrics where
  total_keywords_tracked : Nat
  improving : Nat
  declining : Nat
  stable : Nat
  improvement_ratio : ℚ
  decline_ratio : ℚ
deriving DecidableEq

/-- The assessment produced by `assess_overall_situation`
(`metrics = none` models the initial empty dict). -/
structure Assessment where
  overall_status : String
  trend : String
  metrics : Option Metrics
deriving DecidableEq

/-- Trend of the three most recent positions `[p0, p1, p2]`. -/
def trendOfPositions (p0 p1 p2 : Int) : String :=
  if p0 > p1 ∧ p1 > p2 then "improving"
  else if p0 < p1 ∧ p1 < p2 then "declining"
  else "fluctuating"

/-- Per-keyword body of `assess_overall_situation`: keywords with ≥3
records contribute a trend when the three most recent positions are all
numeric. -/
def keywordTrendOf (keyword : String) (records : List HistoryRecord) :
    Option KeywordTrend :=
  if 3 ≤ records.length then
    let sorted_records := sortStable recLe records
    let recent := sorted_records.drop (sorted_records.length - 3)
    let positions := recent.filterMap (fun r => r.position)
    match positions with
    | [p0, p1, p2] =>
        some ⟨keyword, trendOfPositions p0 p1 p2, p2, p2 - p0⟩
    | _ => none
  else none

/-- `ThreatDetector.assess_overall_situation` over the 7-day history. -/
def assess_overall_situation (history : List HistoryRecord) : Assessment :=
  if history.isEmpty ∨ history.length < 3 then ⟨"stable", "neutral", none⟩
  else
    let keyword_trends := (groupByKeyword history).filterMap fun g =>
      keywordTrendOf g.1 g.2
    let improving := (keyword_trends.filter (fun t => t.trend == "improving")).length
    let declining := (keyword_trends.filter (fun t => t.trend == "declining")).length
    let total := keyword_trends.length
    if 0 < total then
      let improvement_ratio : ℚ := (improving : ℚ) / (total : ℚ)
      let decline_ratio : ℚ := (declining : ℚ) / (total : ℚ)
      let status :=
        if 1/2 < decline_ratio then ("critical", "negative")
        else if 3/10 < decline_ratio then ("warning", "slightly_negative")
        else if 1/2 < improvement_ratio then ("good", "positive")
        else ("stable", "neutral")
      ⟨status.1, status.2,
       some ⟨total, improving, declining, total - improving - declining,
             improvement_ratio, decline_ratio⟩⟩
    else ⟨"stable", "neutral", none⟩

/-- `ThreatDetector.generate_recommendations`: deterministic texts keyed on
which threat categories are present; a generic text when threats exist but
no category matched; a "continue monitoring" text when there are no
threats. -/
def generate_recommendations (threats : List Threat) : List String :=
  let position_drops := threats.filter fun t => t.threatType == "position_drop"
  let displacements := threats.filter fun t => t.threatType == "displacement"
  let recs₁ :=
    if position_drops.isEmpty then []
    else
      let critical_drops := position_drops.filter fun t => t.level == "critical"
      let warning_drops := position_drops.filter fun t => t.level == "warning"
      (if critical_drops.isEmpty then []
       else ["Критическое падение по запросам: " ++
          String.intercalate ", " ((critical_drops.take 3).map Threat.keyword) ++
          ". Требуется немедленный анализ конкурентов."]) ++
      (if warning_drops.isEmpty then []
       else ["Значительное падение по запросам: " ++
          String.intercalate ", " ((warning_drops.take 5).map Threat.keyword) ++
          ". Рекомендуется анализ страниц-конкурентов."])
  let recs₂ :=
    if displacements.isEmpty then []
    else
      ["Вытеснение из топ-20 по запросам: " ++
        String.intercalate ", " ((displacements.take 3).map Threat.keyword) ++
        ". Необходимо срочное улучшение контента."]
  let recs := recs₁ ++ recs₂
  let recs :=
    if !threats.isEmpty && recs.isEmpty then
      recs ++ ["Обнаружены изменения в позициях. Рекомендуется провести анализ конкурентов."]
    else recs
  if threats.isEmpty then
    recs ++ ["Значительных угроз не обнаружено. Продолжайте мониторинг."]
  else recs

/-- Shape of the two trailing fallback appends of
`generate_recommendations`: whatever the category-specific list `R` is,
the result is never empty. -/
theorem recsTailNonempty (t : Bool) (R : List String) (g m : String) :
    (if t then (if !t && R.isEmpty then R ++ [g] else R) ++ [m]
     else (if !t && R.isEmpty then R ++ [g] else R)) ≠ [] := by
  cases t <;> cases R <;> simp

/-- Result record of `ThreatDetector.analyze_project` (the JSON-file dump at
the end is filesystem output, outside the store model). -/
structure AnalysisResult where
  project_name : String
  domain : String
  analysis_date : String
  threats : List Threat
  warnings : List String
  recommendations : List String
  overall_status : String
  trend : String
  metrics : Option Metrics
deriving DecidableEq

/-- `ThreatDetector.analyze_project`: position threats and displacements
are collected, the overall assessment merged in, and recommendations are
generated **only when at least one threat was found** (`if
results["threats"]:`). -/
def analyze_project (now : String) (hoursBetween : String → String → ℚ)
    (daysBetween : String → String → Int) (project_name domain : String)
    (history7 history30 : List HistoryRecord) : AnalysisResult :=
  let threats := analyze_position_changes now hoursBetween history7 ++
    detect_displacements daysBetween history30
  let assessment := assess_overall_situation history7
  let recommendations :=
    if threats.isEmpty then [] else generate_recommendations threats
  ⟨project_name, domain, now, threats, [], recommendations,
   assessment.overall_status, assessment.trend, assessment.metrics⟩

theorem charListLt_irrefl (a : List Char) : charListLt a a = false := by
  induction a with
  | nil => rfl
  | cons x xs ih => simp [charListLt, lt_irrefl, ih]

theorem charListLt_asymm (a : List Char) :
    ∀ b, charListLt a b = true → charListLt b a = false := by
  induction a with
  | nil =>
      intro b h
      cases b with
      | nil => simp [charListLt] at h
      | cons y ys => simp [charListLt]
  | cons x xs ih =>
      intro b h
      cases b with
      | nil => simp [charListLt] at h
      | cons y ys =>
          simp only [charListLt] at h ⊢
          by_cases hxy : x < y
          · rw [if_neg (lt_asymm hxy), if_pos hxy]
          · rw [if_neg hxy] at h
            by_cases hyx : y < x
            · rw [if_pos hyx] at h
              exact absurd h (by simp)
            · rw [if_neg hyx] at h
              rw [if_neg hyx, if_neg hxy]
              exact ih ys h

theorem strLt_irrefl (a : String) : strLt a a = false :=
  charListLt_irrefl a.data

theorem strLt_asymm (a b : String) (h : strLt a b = true) : strLt b a = false :=
  charListLt_asymm a.data b.data h

theorem strLt_ne (a b : String) (h : strLt a b = true) : a ≠ b := by
  intro he
  subst he
  rw [strLt_irrefl] at h
  exact absurd h (by simp)

/-- **C6.** Position-drop classification: for any keyword `k` with two
dated observations, the earlier at `(d₁, t₁)` with numeric position `p`
and the later at `(d₂, t₂)` with numeric position `q` (delivered
newest-first, as `get_position_history` orders them), the classifier emits
exactly one threat with `change = q - p`: `critical` when `change ≥ 10`,
`warning` when `3 ≤ change < 10`, and nothing otherwise — in particular
`p = 5, q = 18` gives one critical threat with `change = 13` and
`p = 5, q = 7` gives no threat. -/
theorem analyze_position_changes_two_point
    (now : String) (hb : String → String → ℚ) (k d₁ t₁ d₂ t₂ : String)
    (p q : Int)
    (hlt : strLt d₁ d₂ = true ∨ (d₁ = d₂ ∧ strLt t₁ t₂ = true)) :
    analyze_position_changes now hb
      [⟨k, d₂, t₂, some q⟩, ⟨k, d₁, t₁, some p⟩] =
      if 10 ≤ q - p then
        [.positionDrop k p q (q - p) "critical" now
          (hb (d₁ ++ " " ++ t₁) (d₂ ++ " " ++ t₂))]
      else if 3 ≤ q - p then
        [.positionDrop k p q (q - p) "warning" now
          (hb (d₁ ++ " " ++ t₁) (d₂ ++ " " ++ t₂))]
      else [] := by
  have hle : recLe ⟨k, d₂, t₂, some q⟩ ⟨k, d₁, t₁, some p⟩ = false := by
    unfold recLe
    rcases hlt with h | ⟨he, ht⟩
    · have hne : (d₂ == d₁) = false :=
        beq_eq_false_iff_ne.mpr (Ne.symm (strLt_ne d₁ d₂ h))
      simp only [hne, Bool.false_eq_true, if_false]
      exact strLt_asymm d₁ d₂ h
    · subst he
      simp [ht]
  have hsort : sortStable recLe [⟨k, d₂, t₂, some q⟩, ⟨k, d₁, t₁, some p⟩] =
      [(⟨k, d₁, t₁, some p⟩ : HistoryRecord), ⟨k, d₂, t₂, some q⟩] := by
    simp [sortStable, insertStable, hle]
  have hgroup : groupByKeyword [⟨k, d₂, t₂, some q⟩, ⟨k, d₁, t₁, some p⟩] =
      [(k, [⟨k, d₂, t₂, some q⟩, ⟨k, d₁, t₁, some p⟩])] := by
    simp [groupByKeyword]
  have hkt : keywordThreat now hb k
      [⟨k, d₂, t₂, some q⟩, ⟨k, d₁, t₁, some p⟩] =
      if 10 ≤ q - p then
        some (.positionDrop k p q (q - p) "critical" now
          (hb (d₁ ++ " " ++ t₁) (d₂ ++ " " ++ t₂)))
      else if 3 ≤ q - p then
        some (.positionDrop k p q (q - p) "warning" now
          (hb (d₁ ++ " " ++ t₁) (d₂ ++ " " ++ t₂)))
      else none := by
    simp only [keywordThreat, hsort]
    rfl
  show List.filterMap (fun g => keywordThreat now hb g.1 g.2)
      (groupByKeyword [⟨k, d₂, t₂, some q⟩, ⟨k, d₁, t₁, some p⟩]) = _
  rw [hgroup]
  simp only [List.filterMap_cons, List.filterMap_nil]
  rw [hkt]
  by_cases h1 : (10 : Int) ≤ q - p
  · simp [h1]
  · by_cases h2 : (3 : Int) ≤ q - p <;> simp [h1, h2]

/-- Witness for C6: the spec's two concrete histories — `(day1 5, day2 18)`
yields one critical drop with change 13; `(day1 5, day2 7)` yields no
threat. -/
theorem analyze_position_changes_two_point_witness :
    analyze_position_changes "T" (fun _ _ => 0)
      [⟨"K", "2024-01-02", "10:00:00", some 18⟩,
       ⟨"K", "2024-01-01", "10:00:00", some 5⟩] =
      [.positionDrop "K" 5 18 13 "critical" "T" 0] ∧
    analyze_position_changes "T" (fun _ _ => 0)
      [⟨"K", "2024-01-02", "10:00:00", some 7⟩,
       ⟨"K", "2024-01-01", "10:00:00", some 5⟩] = [] := by
  constructor
  · rw [analyze_position_changes_two_point "T" (fun _ _ => 0) "K"
      "2024-01-01" "10:00:00" "2024-01-02" "10:00:00" 5 18 (Or.inl rfl)]
    norm_num
  · rw [analyze_position_changes_two_point "T" (fun _ _ => 0) "K"
      "2024-01-01" "10:00:00" "2024-01-02" "10:00:00" 5 7 (Or.inl rfl)]
    norm_num

/-- **C7 (counterexample).** `analyze_project` does **not** always return a
non-empty recommendations list: with no history at all it finds no threats
and — because `generate_recommendations` is only invoked when threats
exist — returns an empty recommendations list. -/
theorem analyze_project_empty_recommendations :
    (analyze_project "2024-01-03T00:00:00" (fun _ _ => 0) (fun _ _ => 0)
        "P" "example.com" [] []).threats = [] ∧
    (analyze_project "2024-01-03T00:00:00" (fun _ _ => 0) (fun _ _ => 0)
        "P" "example.com" [] []).recommendations = [] :=
  ⟨rfl, rfl⟩

/-- **C7 (amended).** `generate_recommendations` itself always returns a
non-empty list (a generic recommendation when threats exist but no category
matched, a "continue monitoring" recommendation when there are no
threats); but `analyze_project` only calls it when threats exist, so an
analysis that finds no threats returns an empty recommendations list. -/
theorem generate_recommendations_nonempty_but_gated :
    (∀ threats : List Threat, generate_recommendations threats ≠ []) ∧
    ∀ (now : String) (hb : String → String → ℚ) (dbw : String → String → Int)
      (pn dom : String) (h7 h30 : List HistoryRecord),
      (analyze_project now hb dbw pn dom h7 h30).threats = [] →
      (analyze_project now hb dbw pn dom h7 h30).recommendations = [] := by
  constructor
  · intro threats
    exact recsTailNonempty threats.isEmpty _ _ _
  · intro now hb dbw pn dom h7 h30 h
    simp only [analyze_project] at h ⊢
    rw [h]
    simp

/-- Witness for the amended C7: the no-threat branch of
`generate_recommendations` produces the monitoring text, and a concrete
no-threat analysis has empty recommendations. -/
theorem generate_recommendations_nonempty_but_gated_witness :
    generate_recommendations [] ≠ [] ∧
    (analyze_project "2024-01-03T00:00:00" (fun _ _ => 0) (fun _ _ => 0)
        "P" "example.com" [] []).recommendations = [] :=
  ⟨generate_recommendations_nonempty_but_gated.1 [],
   generate_recommendations_nonempty_but_gated.2 "2024-01-03T00:00:00"
     (fun _ _ => 0) (fun _ _ => 0) "P" "example.com" [] [] rfl⟩

/-! ## Ingestion Engine (`core/data_collector.py`)

`DataCollector.check_positions` and `check_positions_with_session` are
embedded as pure functions over the database plus oracles for everything
external: the YAML config, the JSON file cache, the position source
(`_get_position_from_search`) and the wall clock.  Alongside the new
database they return the per-keyword result list and a trace of the store
calls they issued. -/

/-- One entry of `config['projects']` (only the fields the collector
reads). -/
structure ConfigProject where
  name : Option String
  domain : String
deriving DecidableEq, Repr

/-- The position-source result consumed by the collector
(`position_data`). -/
structure PositionData where
  position : Option Int
  url : String
  total_results : Int
  competitors : List Competitor
  method : String
deriving DecidableEq, Repr

/-- The per-keyword result dict built by `check_positions` (also what the
JSON cache stores and returns). -/
structure CheckResult where
  keyword : String
  position : Option Int
  date : String
  time : String
  session_id : Option Nat
  search_engine : String
  url : String
  total_results : Int
  method : String
deriving DecidableEq, Repr

/-- A store call issued by the collector. -/
inductive StoreEvent where
  | savePos (project_id keyword_id : Nat) (session_id : Option Nat)
      (check_date check_time : String) (position : Option Int)
  | saveComp (project_id keyword_id : Nat) (session_id : Option Nat)
      (check_date check_time : String) (competitors : List Competitor)
  | snapshot (project_id keyword_id : Nat) (snapshot_date : String)
      (top_10 : List Competitor)
deriving DecidableEq, Repr

/-- Position or competitor write (not a snapshot write). -/
def StoreEvent.isObservation : StoreEvent → Bool
  | .savePos .. => true
  | .saveComp .. => true
  | .snapshot .. => false

/-- Snapshot write. -/
def StoreEvent.isSnapshot : StoreEvent → Bool
  | .snapshot .. => true
  | _ => false

/-- The `(check_date, check_time)` an observation event was written with. -/
def StoreEvent.stamp : StoreEvent → String × String
  | .savePos _ _ _ d t _ => (d, t)
  | .saveComp _ _ _ d t _ => (d, t)
  | .snapshot _ _ d _ => (d, "")

/-- The `session_id` an observation event was written with. -/
def StoreEvent.sid : StoreEvent → Option Nat
  | .savePos _ _ s _ _ _ => s
  | .saveComp _ _ s _ _ _ => s
  | .snapshot _ _ _ _ => none

/-- `str.startswith` on character lists. -/
def listStartsWith : List Char → List Char → Bool
  | [], _ => true
  | _ :: _, [] => false
  | p :: ps, c :: cs => p == c && listStartsWith ps cs

/-- Scanner of `replaceAll`; the fuel argument (initially the input
length, consumed one unit per examined character) only makes the recursion
structural, it never runs out before the input does. -/
def replaceAllGo (pattern repl : List Char) : Nat → List Char → List Char
  | _, [] => []
  | 0, rest => rest
  | fuel + 1, c :: cs =>
      if !pattern.isEmpty && listStartsWith pattern (c :: cs) then
        repl ++ replaceAllGo pattern repl fuel (cs.drop (pattern.length - 1))
      else
        c :: replaceAllGo pattern repl fuel cs

/-- Python `str.replace(pattern, repl)`: replace every non-overlapping
occurrence, scanning left to right. -/
def replaceAll (pattern repl : List Char) (s : List Char) : List Char :=
  replaceAllGo pattern repl s.length s

/-- Python `str.strip('/')`. -/
def stripSlash (s : List Char) : List Char :=
  ((s.dropWhile (· == '/')).reverse.dropWhile (· == '/')).reverse

/-- The domain normalisation of `_find_project_by_domain`:
`.replace('http://', '').replace('https://', '').strip('/')`. -/
def cleanDomain (s : String) : String :=
  String.mk (stripSlash (replaceAll "https://".data []
    (replaceAll "http://".data [] s.data)))

/-- `DataCollector._find_project_by_domain`: first config project whose
normalised domain equals the normalised query domain. -/
def find_project_by_domain (config : List ConfigProject) (domain : String) :
    Option ConfigProject :=
  config.find? fun p => cleanDomain domain == cleanDomain p.domain

/-- `DataCollector._get_session_info`: the session row with this id
belonging to this project, if any. -/
def get_session_info (db : DB) (session_id project_id : Nat) :
    Option SessionRow :=
  db.sessions.find? fun r =>
    r.session_id == session_id && r.project_id == project_id

/-- `SEODatabase.create_monitoring_session`: insert a `running` session
stamped with the current time (`start_date`/`start_time` oracle values),
returning its id. -/
def create_monitoring_session (db : DB) (project_id : Nat)
    (session_name : Option String) (start_date start_time : String) :
    DB × Nat :=
  let row : SessionRow :=
    ⟨db.nextSessionId, project_id, session_name, start_date, start_time,
     none, none, "running", none, none⟩
  ({ db with
      sessions := db.sessions ++ [row],
      nextSessionId := db.nextSessionId + 1 },
   db.nextSessionId)

/-- `SEODatabase.complete_monitoring_session`: stamp the end time
(`CURRENT_TIMESTAMP` oracle), mark `completed` and store the keyword
counters when given. -/
def complete_monitoring_session (db : DB) (session_id : Nat)
    (total_keywords completed_keywords : Option Nat)
    (end_now : String × String) : DB :=
  { db with
      sessions := db.sessions.map fun r =>
        if r.session_id == session_id then
          { r with
              status := "completed",
              end_date := some end_now.1,
              end_time := some end_now.2,
              total_keywords :=
                match total_keywords with
                | some n => some n
                | none => r.total_keywords,
              completed_keywords :=
                match completed_keywords with
                | some n => some n
                | none => r.completed_keywords }
        else r }

/-- `SEODatabase.fail_monitoring_session`: stamp the end time, mark
`failed`; a truthy error message overwrites the session name with
`FAILED: ` plus its first 100 characters. -/
def fail_monitoring_session (db : DB) (session_id : Nat)
    (error_message : Option String) (end_now : String × String) : DB :=
  { db with
      sessions := db.sessions.map fun r =>
        if r.session_id == session_id then
          { r with
              status := "failed",
              end_date := some end_now.1,
              end_time := some end_now.2,
              session_name :=
                if (error_message.getD "") = "" then r.session_name
                else some ("FAILED: " ++ (error_message.getD "").take 100) }
        else r }

/-- Mutable state of the keyword loop in `check_positions`: the database,
the accumulated `results` and `all_competitors` lists, the last value of
the `keyword_id` variable, the current `(check_date, check_time)` pair and
the trace of store calls. -/
structure LoopState where
  db : DB
  results : List CheckResult
  all_competitors : List Competitor
  keyword_id : Option Nat
  cur : String × String
  trace : List StoreEvent

/-- Python `sorted(all_competitors, key=lambda x: x.get('position', 101))`
— the dicts the collector accumulates always carry a position. -/
def compPosLe (a b : Competitor) : Bool :=
  decide (a.position ≤ b.position)

/-- One iteration of the keyword loop of `DataCollector.check_positions`:
without a session the check time is re-read from the clock; a cache hit
saves the cached position and appends the cached dict, skipping competitor
handling; otherwise the position source is queried, the position saved,
and — when competitor tracking is on and competitors came back — the list
is truncated to `competitors_limit`, saved, and accumulated for the final
snapshot. -/
def processKeyword (cache : String → Option CheckResult)
    (fetch : String → PositionData) (now : Nat → String × String)
    (domain : String) (project_id : Nat) (session_id : Option Nat)
    (search_engine : String) (use_cache track_competitors : Bool)
    (competitors_limit : Nat) (idx : Nat) (kw : String) (st : LoopState) :
    LoopState :=
  let cur := if session_id.isNone then now idx else st.cur
  let cache_key := search_engine ++ "_" ++ domain ++ "_" ++ kw
  match (if use_cache then cache cache_key else none) with
  | some cached =>
      let k := get_or_create_keyword st.db project_id kw
      let sp := save_position k.1 project_id k.2 cur.1 cur.2 cached.position
        (some cached.url) cached.total_results search_engine session_id
      { st with
          db := sp.1,
          results := st.results ++ [cached],
          keyword_id := some k.2,
          cur := cur,
          trace := st.trace ++
            [.savePos project_id k.2 session_id cur.1 cur.2 cached.position] }
  | none =>
      let position_data := fetch kw
      let k := get_or_create_keyword st.db project_id kw
      let sp := save_position k.1 project_id k.2 cur.1 cur.2
        position_data.position (some position_data.url)
        position_data.total_results search_engine session_id
      let afterComp : DB × List Competitor × List StoreEvent :=
        if !position_data.competitors.isEmpty && track_competitors then
          let comps := position_data.competitors.take competitors_limit
          (save_competitors sp.1 project_id k.2 cur.1 cur.2 (comps.map some)
             session_id,
           st.all_competitors ++ comps,
           [.saveComp project_id k.2 session_id cur.1 cur.2 comps])
        else (sp.1, st.all_competitors, [])
      let result : CheckResult :=
        ⟨kw, position_data.position, cur.1, cur.2, session_id, search_engine,
         position_data.url, position_data.total_results, position_data.method⟩
      { db := afterComp.1,
        results := st.results ++ [result],
        all_competitors := afterComp.2.1,
        keyword_id := some k.2,
        cur := cur,
        trace := st.trace ++
          [.savePos project_id k.2 session_id cur.1 cur.2 position_data.position] ++
          afterComp.2.2 }

/-- The keyword loop of `check_positions`. -/
def loopKeywords (cache : String → Option CheckResult)
    (fetch : String → PositionData) (now : Nat → String × String)
    (domain : String) (project_id : Nat) (session_id : Option Nat)
    (search_engine : String) (use_cache track_competitors : Bool)
    (competitors_limit : Nat) : Nat → List String → LoopState → LoopState
  | _, [], st => st
  | idx, kw :: rest, st =>
      loopKeywords cache fetch now domain project_id session_id search_engine
        use_cache track_competitors competitors_limit (idx + 1) rest
        (processKeyword cache fetch now domain project_id session_id
          search_engine use_cache track_competitors competitors_limit idx kw st)

/-- The post-loop snapshot write of `check_positions`: one single
`save_snapshot_if_changed` call per batch, fed with the top-10 (ascending in
position) of **all** competitors accumulated across the whole keyword list,
keyed by the **last** value of the `keyword_id` loop variable and the last
`check_date`. -/
def finishSnapshot (track_competitors : Bool) (project_id : Nat)
    (st : LoopState) : DB × List StoreEvent :=
  if track_competitors && !st.all_competitors.isEmpty then
    let top_10 := (sortStable compPosLe st.all_competitors).take 10
    match st.keyword_id with
    | some kid =>
        ((save_snapshot_if_changed st.db project_id kid st.cur.1 top_10).1,
         [.snapshot project_id kid st.cur.1 top_10])
    | none => (st.db, [])
  else (st.db, [])

/-- `DataCollector.check_positions`.  An unknown domain returns the empty
result list before touching the store; a supplied session id is validated
against the resolved project and silently dropped when invalid; with a
valid session the session's start time is the check timestamp for the whole
batch, otherwise each keyword is stamped from the clock oracle. -/
def check_positions (db : DB) (config : List ConfigProject)
    (cache : String → Option CheckResult) (fetch : String → PositionData)
    (now : Nat → String × String) (domain : String) (keywords : List String)
    (session_id : Option Nat) (search_engine : String)
    (use_cache track_competitors : Bool) (competitors_limit : Nat) :
    Except DBError (DB × List CheckResult × List StoreEvent) :=
  match find_project_by_domain config domain with
  | none => .ok (db, [], [])
  | some project =>
      let project_name := project.name.getD domain
      match get_or_create_project db project_name domain with
      | .error e => .error e
      | .ok res =>
          let db1 := res.1
          let project_id := res.2
          let sid : Option Nat :=
            match session_id with
            | none => none
            | some s =>
                match get_session_info db1 s project_id with
                | none => none
                | some _ => some s
          let cur0 : String × String :=
            match sid with
            | some s =>
                match get_session_info db1 s project_id with
                | some srow => (srow.start_date, srow.start_time)
                | none => ("", "")
            | none => ("", "")
          let final := loopKeywords cache fetch now domain project_id sid
            search_engine use_cache track_competitors competitors_limit 0
            keywords ⟨db1, [], [], none, cur0, []⟩
          let fin := finishSnapshot track_competitors project_id final
          .ok (fin.1, final.results, final.trace ++ fin.2)

/-- Message attached by `str(e)` when a store error is recorded on a failed
session. -/
def DBError.message : DBError → String
  | .invalidArgument => "InvalidArgument"

/-- `DataCollector.check_positions_with_session`: unknown domain returns
`([], -1)` without creating a session; otherwise a `running` session is
created, the batch runs under it, and the session is completed with the
keyword counters (or marked failed if the batch raised).  `session_now` is
the session's `CURRENT_TIMESTAMP`, `session_name_now` the timestamp used in
the default session name. -/
def check_positions_with_session (db : DB) (config : List ConfigProject)
    (cache : String → Option CheckResult) (fetch : String → PositionData)
    (now : Nat → String × String) (session_now : String × String)
    (session_name_now : String) (end_now : String × String)
    (domain : String) (keywords : List String)
    (session_name : Option String) (search_engine : String)
    (use_cache track_competitors : Bool) (competitors_limit : Nat) :
    Except DBError (DB × List CheckResult × List StoreEvent × Int) :=
  match find_project_by_domain config domain with
  | none => .ok (db, [], [], -1)
  | some project =>
      let project_name := project.name.getD domain
      match get_or_create_project db project_name domain with
      | .error e => .error e
      | .ok res =>
          let db1 := res.1
          let project_id := res.2
          let sname : String :=
            if (session_name.getD "") = "" then
              "Проверка " ++ domain ++ " " ++ session_name_now
            else (session_name.getD "")
          let c := create_monitoring_session db1 project_id (some sname)
            session_now.1 session_now.2
          match check_positions c.1 config cache fetch now domain keywords
              (some c.2) search_engine use_cache track_competitors
              competitors_limit with
          | .ok r =>
              let successful :=
                (r.2.1.filter fun x => x.position.isSome).length
              let db4 := complete_monitoring_session r.1 c.2
                (some keywords.length) (some successful) end_now
              .ok (db4, r.2.1, r.2.2, (c.2 : Int))
          | .error e =>
              let db4 := fail_monitoring_session c.1 c.2 (some e.message) end_now
              .ok (db4, [], [], (c.2 : Int))

/-- The trace component of a `check_positions` run (empty on error). -/
def runTrace (x : Except DBError (DB × List CheckResult × List StoreEvent)) :
    List StoreEvent :=
  match x with
  | .ok r => r.2.2
  | .error _ => []

/-- **C9.** For a domain absent from the loaded project configuration,
`check_positions` returns the empty list and the untouched database (no
project, keyword or observation is created), and
`check_positions_with_session` returns `([], -1)` with the untouched
database (no monitoring session is created). -/
theorem unknown_domain_is_noop
    (db : DB) (config : List ConfigProject)
    (cache : String → Option CheckResult) (fetch : String → PositionData)
    (now : Nat → String × String) (session_now : String × String)
    (session_name_now : String) (end_now : String × String)
    (domain : String) (keywords : List String) (session_id : Option Nat)
    (session_name : Option String) (se : String) (uc tcp : Bool) (lim : Nat)
    (h : find_project_by_domain config domain = none) :
    check_positions db config cache fetch now domain keywords session_id
        se uc tcp lim = .ok (db, [], []) ∧
    check_positions_with_session db config cache fetch now session_now
        session_name_now end_now domain keywords session_name se uc tcp lim =
      .ok (db, [], [], -1) := by
  constructor
  · unfold check_positions
    rw [h]
  · unfold check_positions_with_session
    rw [h]

/-- Witness for C9: a config knowing only `known.com`, queried for
`unknown.com`. -/
theorem unknown_domain_is_noop_witness :
    check_positions DB.empty [⟨some "P", "known.com"⟩] (fun _ => none)
        (fun _ => ⟨none, "", 0, [], "stub"⟩) (fun _ => ("", ""))
        "unknown.com" ["k"] none "yandex" true true 20 =
      .ok (DB.empty, [], []) ∧
    check_positions_with_session DB.empty [⟨some "P", "known.com"⟩]
        (fun _ => none) (fun _ => ⟨none, "", 0, [], "stub"⟩) (fun _ => ("", ""))
        ("2024-01-01", "10:00:00") "2024-01-01 10:00"
        ("2024-01-01", "10:05:00") "unknown.com" ["k"] none "yandex"
        true true 20 =
      .ok (DB.empty, [], [], -1) :=
  unknown_domain_is_noop DB.empty [⟨some "P", "known.com"⟩] (fun _ => none)
    (fun _ => ⟨none, "", 0, [], "stub"⟩) (fun _ => ("", ""))
    ("2024-01-01", "10:00:00") "2024-01-01 10:00" ("2024-01-01", "10:05:00")
    "unknown.com" ["k"] none none "yandex" true true 20 rfl

/-- **C8.** `get_or_create_project` never fails on a non-empty domain (it
returns an id either by lookup or by insert), and an empty domain — which
by the modelled schema constraint can never name an existing project row —
is rejected with `InvalidArgument`; the rejected call returns only the
error, i.e. no project row is created or updated. -/
theorem get_or_create_project_contract (db : DB) (name domain : String)
    (hne : domain ≠ "")
    (hvalid : ∀ p ∈ db.projects, (p.domain == "") = false) :
    (∃ r, get_or_create_project db name domain = .ok r) ∧
    get_or_create_project db name "" = .error .invalidArgument := by
  constructor
  · cases h : db.projects.find? (fun p => p.domain == domain) with
    | none =>
        exact ⟨({ db with
            projects := db.projects ++ [⟨db.nextProjectId, name, domain⟩],
            nextProjectId := db.nextProjectId + 1 }, db.nextProjectId),
          by unfold get_or_create_project; rw [h, if_neg hne]⟩
    | some p =>
        exact ⟨({ db with
            projects := db.projects.map fun q =>
              if q.id == p.id then { q with name := name } else q }, p.id),
          by unfold get_or_create_project; rw [h]⟩
  · unfold get_or_create_project
    rw [find?_eq_none_of_all _ _ hvalid, if_pos rfl]

/-- Witness for C8 at the empty database. -/
theorem get_or_create_project_contract_witness :
    (∃ r, get_or_create_project DB.empty "P" "site.com" = .ok r) ∧
    get_or_create_project DB.empty "P" "" = .error .invalidArgument :=
  get_or_create_project_contract DB.empty "P" "site.com" (by decide)
    (by intro p hp; simp [DB.empty] at hp)

/-- **C4 (counterexample).** Two stored observations can share a non-null
`session_id` yet carry different `(check_date, check_time)`: a session
batch writes keywords 1 and 2 at the session stamp `10:00:00` with session
7; a later same-day session-less `save_position` for keyword 1 overwrites
its `check_time` to `15:30:00` while `COALESCE(NULL, session_id)` keeps
session 7 — the pairwise equal-timestamp invariant fails on this reachable
state. -/
theorem session_timestamp_broken_by_sessionless_update :
    ((save_position (save_position (save_position DB.empty
        1 1 "2024-01-02" "10:00:00" (some 5) (some "u1") 100 "yandex" (some 7)).1
        1 2 "2024-01-02" "10:00:00" (some 6) (some "u2") 100 "yandex" (some 7)).1
        1 1 "2024-01-02" "15:30:00" (some 9) (some "u3") 100 "yandex" none).1.positions.map
      (fun r => (r.keyword_id, r.session_id, r.check_time))) =
      [(1, some 7, "15:30:00"), (2, some 7, "10:00:00")] := rfl

/-- `processKeyword` under a session neither changes the current check
stamp nor emits an event with any other stamp or session id. -/
theorem processKeyword_session_stamp
    (cache : String → Option CheckResult) (fetch : String → PositionData)
    (now : Nat → String × String) (domain : String) (pid s : Nat)
    (se : String) (uc tcp : Bool) (lim idx : Nat) (kw : String)
    (st : LoopState) :
    (processKeyword cache fetch now domain pid (some s) se uc tcp lim idx kw st).cur =
      st.cur ∧
    ∀ ev ∈ (processKeyword cache fetch now domain pid (some s) se uc tcp lim
        idx kw st).trace,
      ev ∈ st.trace ∨ (ev.stamp = st.cur ∧ ev.sid = some s) := by
  unfold processKeyword
  cases hc : (if uc = true then cache (se ++ "_" ++ domain ++ "_" ++ kw) else none) with
  | some cached =>
      simp only [hc]
      refine ⟨rfl, ?_⟩
      intro ev hev
      simp only [Option.isNone_some, Bool.false_eq_true, if_false,
        List.mem_append, List.mem_singleton] at hev
      rcases hev with h | h
      · exact Or.inl h
      · subst h
        exact Or.inr ⟨rfl, rfl⟩
  | none =>
      simp only [hc]
      refine ⟨rfl, ?_⟩
      intro ev hev
      simp only [Option.isNone_some, Bool.false_eq_true, if_false,
        List.mem_append, List.mem_singleton] at hev
      rcases hev with (h | h) | h
      · exact Or.inl h
      · subst h
        exact Or.inr ⟨rfl, rfl⟩
      · refine Or.inr ?_
        revert h
        split
        · intro h
          simp only [List.mem_singleton] at h
          subst h
          exact ⟨rfl, rfl⟩
        · intro h
          simp at h

/-- The keyword loop under a session: the stamp is never reset, and every
event it appends carries the initial stamp and the session id. -/
theorem loopKeywords_session_stamp
    (cache : String → Option CheckResult) (fetch : String → PositionData)
    (now : Nat → String × String) (domain : String) (pid s : Nat)
    (se : String) (uc tcp : Bool) (lim : Nat) :
    ∀ (kws : List String) (idx : Nat) (st : LoopState),
      (loopKeywords cache fetch now domain pid (some s) se uc tcp lim idx kws st).cur =
        st.cur ∧
      ∀ ev ∈ (loopKeywords cache fetch now domain pid (some s) se uc tcp lim
          idx kws st).trace,
        ev ∈ st.trace ∨ (ev.stamp = st.cur ∧ ev.sid = some s) := by
  intro kws
  induction kws with
  | nil => exact fun idx st => ⟨rfl, fun ev hev => Or.inl hev⟩
  | cons kw rest ih =>
      intro idx st
      have hp := processKeyword_session_stamp cache fetch now domain pid s se
        uc tcp lim idx kw st
      have hl := ih (idx + 1)
        (processKeyword cache fetch now domain pid (some s) se uc tcp lim idx kw st)
      refine ⟨hl.1.trans hp.1, ?_⟩
      intro ev hev
      rcases hl.2 ev hev with h | h
      · rcases hp.2 ev h with h2 | h2
        · exact Or.inl h2
        · exact Or.inr h2
      · rw [hp.1] at h
        exact Or.inr h

/-- The post-loop snapshot step only ever emits snapshot events. -/
theorem finishSnapshot_only_snapshots (tcp : Bool) (pid : Nat)
    (st : LoopState) :
    ∀ ev ∈ (finishSnapshot tcp pid st).2, ev.isObservation = false := by
  unfold finishSnapshot
  split
  · split
    · intro ev hev
      simp only [List.mem_singleton] at hev
      subst hev
      rfl
    · intro ev hev
      simp at hev
  · intro ev hev
    simp at hev

/-- **C4 (amended).** When a batch runs under a session that exists and
belongs to the resolved project, every position and competitor observation
it writes is stamped with the session's start `(check_date, check_time)` —
not the wall clock of the per-keyword call — and carries that session id.
(The original pairwise invariant over all stored rows fails later: a
same-day session-less `save_position` overwrites `check_time` while
`COALESCE` keeps the recorded `session_id`.) -/
theorem session_batch_shares_start_stamp
    (db : DB) (config : List ConfigProject)
    (cache : String → Option CheckResult) (fetch : String → PositionData)
    (now : Nat → String × String) (domain : String) (keywords : List String)
    (s : Nat) (se : String) (uc tcp : Bool) (lim : Nat)
    (project : ConfigProject) (res : DB × Nat) (srow : SessionRow)
    (hfind : find_project_by_domain config domain = some project)
    (hproj : get_or_create_project db (project.name.getD domain) domain = .ok res)
    (hsess : get_session_info res.1 s res.2 = some srow)
    (ev : StoreEvent)
    (hev : ev ∈ runTrace (check_positions db config cache fetch now domain
      keywords (some s) se uc tcp lim))
    (hobs : ev.isObservation = true) :
    ev.stamp = (srow.start_date, srow.start_time) ∧ ev.sid = some s := by
  unfold check_positions at hev
  rw [hfind] at hev
  simp only [hproj, hsess, runTrace] at hev
  rw [List.mem_append] at hev
  rcases hev with h | h
  · have := (loopKeywords_session_stamp cache fetch now domain res.2 s se uc
      tcp lim keywords 0
      ⟨res.1, [], [], none, (srow.start_date, srow.start_time), []⟩).2 ev h
    rcases this with h2 | h2
    · simp at h2
    · exact h2
  · have := finishSnapshot_only_snapshots tcp res.2 _ ev h
    rw [hobs] at this
    exact absurd this (by simp)

/-- Witness for the amended C4: a one-keyword batch under session 1 of a
pre-existing project; its single position write is stamped with the
session's start time `09:00:00`, not the clock oracle's `22:00:00`. -/
theorem session_batch_shares_start_stamp_witness :
    (StoreEvent.savePos 1 1 (some 1) "2024-01-01" "09:00:00" (some 3)).stamp =
      ("2024-01-01", "09:00:00") ∧
    (StoreEvent.savePos 1 1 (some 1) "2024-01-01" "09:00:00" (some 3)).sid =
      some 1 :=
  session_batch_shares_start_stamp
    ⟨[⟨1, "P", "site.com"⟩], [],
     [⟨1, 1, some "S", "2024-01-01", "09:00:00", none, none, "running", none, none⟩],
     [], [], [], [], 2, 1, 2, 1, 1, 1, 1⟩
    [⟨some "P", "site.com"⟩] (fun _ => none)
    (fun _ => ⟨some 3, "u", 100, [], "api"⟩)
    (fun _ => ("2024-01-09", "22:00:00")) "site.com" ["k1"] 1 "yandex"
    false false 20 ⟨some "P", "site.com"⟩
    (⟨[⟨1, "P", "site.com"⟩], [],
      [⟨1, 1, some "S", "2024-01-01", "09:00:00", none, none, "running", none, none⟩],
      [], [], [], [], 2, 1, 2, 1, 1, 1, 1⟩, 1)
    ⟨1, 1, some "S", "2024-01-01", "09:00:00", none, none, "running", none, none⟩
    rfl rfl rfl
    (StoreEvent.savePos 1 1 (some 1) "2024-01-01" "09:00:00" (some 3))
    (by decide) rfl

/-- The keyword loop itself never writes a snapshot. -/
theorem processKeyword_no_snapshot
    (cache : String → Option CheckResult) (fetch : String → PositionData)
    (now : Nat → String × String) (domain : String) (pid : Nat)
    (sid : Option Nat) (se : String) (uc tcp : Bool) (lim idx : Nat)
    (kw : String) (st : LoopState) :
    ((processKeyword cache fetch now domain pid sid se uc tcp lim idx kw
        st).trace.countP (fun ev => ev.isSnapshot)) =
      st.trace.countP (fun ev => ev.isSnapshot) := by
  unfold processKeyword
  cases hc : (if uc = true then cache (se ++ "_" ++ domain ++ "_" ++ kw) else none) with
  | some cached =>
      simp [hc, List.countP_append, StoreEvent.isSnapshot]
  | none =>
      simp only [hc]
      split <;> split <;>
        simp [List.countP_append, List.countP_cons, StoreEvent.isSnapshot]

/-- Snapshot-event count is invariant under the whole keyword loop. -/
theorem loopKeywords_no_snapshot
    (cache : String → Option CheckResult) (fetch : String → PositionData)
    (now : Nat → String × String) (domain : String) (pid : Nat)
    (sid : Option Nat) (se : String) (uc tcp : Bool) (lim : Nat) :
    ∀ (kws : List String) (idx : Nat) (st : LoopState),
      ((loopKeywords cache fetch now domain pid sid se uc tcp lim idx kws
          st).trace.countP (fun ev => ev.isSnapshot)) =
        st.trace.countP (fun ev => ev.isSnapshot) := by
  intro kws
  induction kws with
  | nil => exact fun idx st => rfl
  | cons kw rest ih =>
      intro idx st
      exact (ih (idx + 1) _).trans
        (processKeyword_no_snapshot cache fetch now domain pid sid se uc tcp
          lim idx kw st)

/-- The post-loop step emits at most one event. -/
theorem finishSnapshot_at_most_one (tcp : Bool) (pid : Nat) (st : LoopState) :
    ((finishSnapshot tcp pid st).2.countP (fun ev => ev.isSnapshot)) ≤ 1 := by
  unfold finishSnapshot
  split
  · split
    · simp [List.countP_cons, StoreEvent.isSnapshot]
    · simp
  · simp

/-- **C5 (amended).** A `check_positions` batch performs at most one
snapshot write in total — not one per keyword: the loop never snapshots,
and the single post-loop `save_snapshot_if_changed` call (made only when
competitor tracking is on and some competitors were accumulated) is keyed
by the last processed keyword's id and fed the top-10 of the combined
competitor list of the whole batch. -/
theorem check_positions_at_most_one_snapshot
    (db : DB) (config : List ConfigProject)
    (cache : String → Option CheckResult) (fetch : String → PositionData)
    (now : Nat → String × String) (domain : String) (keywords : List String)
    (session_id : Option Nat) (se : String) (uc tcp : Bool) (lim : Nat) :
    ((runTrace (check_positions db config cache fetch now domain keywords
        session_id se uc tcp lim)).countP (fun ev => ev.isSnapshot)) ≤ 1 := by
  unfold check_positions
  cases h : find_project_by_domain config domain with
  | none => simp [runTrace]
  | some project =>
      simp only
      cases hp : get_or_create_project db (project.name.getD domain) domain with
      | error e => simp [runTrace]
      | ok res =>
          simp only [runTrace, List.countP_append]
          rw [loopKeywords_no_snapshot]
          simpa using finishSnapshot_at_most_one tcp res.2 _

/-- **C5 (counterexample).** A two-keyword batch with competitor tracking
on, where each keyword returns one competitor, performs exactly **one**
snapshot write: it is keyed by the **second** keyword's id (2) and its
top-10 mixes both keywords' competitors (`c2.com` from keyword 2 first,
`c1.com` from keyword 1 second) — there is no per-keyword snapshot of
keyword 1's own list, contradicting the claim. -/
theorem check_positions_batch_snapshot_counterexample :
    ((runTrace (check_positions DB.empty [⟨some "P", "site.com"⟩]
        (fun _ => none)
        (fun kw => if kw = "k1" then
            ⟨some 3, "u1", 100, [⟨"c1.com", 4, "", "", ""⟩], "api"⟩
          else ⟨some 7, "u2", 100, [⟨"c2.com", 2, "", "", ""⟩], "api"⟩)
        (fun i => ("2024-01-01", if i = 0 then "10:00:00" else "10:00:05"))
        "site.com" ["k1", "k2"] none "yandex" false true 20)).filter
      (fun ev => ev.isSnapshot)) =
      [.snapshot 1 2 "2024-01-01"
        [⟨"c2.com", 2, "", "", ""⟩, ⟨"c1.com", 4, "", "", ""⟩]] := rfl

end SeoAgent
